import Mathlib

/-!
Verification of the coffee-shop sales dashboard script (`main.py`).

The script loads a table of sales transactions (falling back to a synthetic
dataset when the input file is missing), computes aggregate views with
pandas-style groupby operations, and renders them as plotly charts.  Here the
relevant fragment is shallowly embedded: a `Transaction` row carries the four
columns `money`, `cash_type`, `coffee_name`, `date`; a `Dataset` is the list
of rows; monetary values are modelled as exact rationals and pandas `NaN`
results (mean of an empty group) as `Option.none`.  Dates are modelled as a
day count with day 0 = Monday 2024-12-29+1 (so 2025-01-01, a Wednesday, is
day 2), which is all the weekday logic of the script observes.
-/

/-- One row of the sales table: columns `money`, `cash_type`, `coffee_name`,
`date` of `main.py`. -/
structure Transaction where
  money : ℚ
  cash_type : String
  coffee_name : String
  date : ℕ
deriving DecidableEq

/-- The in-memory table of transaction rows (`df` in `main.py`). -/
abbrev Dataset := List Transaction

/-- The fixed categorical weekday order used by `create_line_chart`
(`weekday_order` in `main.py`). -/
def weekday_order : List String :=
  ["Monday", "Tuesday", "Wednesday", "Thursday", "Friday", "Saturday", "Sunday"]

/-- `pandas.Series.dt.day_name()` on the day-count encoding of dates:
day 0 is a Monday. -/
def dayName (d : ℕ) : String := weekday_order.getD (d % 7) ""

/-- The fixed 3-name product list cycled through by the fallback data
(`['Espresso', 'Latte', 'Capuccino']` in `main.py`). -/
def fallback_coffee_names : List String := ["Espresso", "Latte", "Capuccino"]

/-- The synthetic fallback table built in the `except FileNotFoundError`
branch of `main.py`: 100 rows with `money = 10*i + 50`, `cash_type`
alternating card/cash, `coffee_name` cycling through the 3-name list
(`['Espresso','Latte','Capuccino'] * 33 + ['Espresso']` is exactly the cycle
`i % 3` for `i < 100`), and dates the 100 consecutive days from 2025-01-01
(day 2 in the day-count encoding). -/
def fallbackData : Dataset :=
  (List.range 100).map (fun i =>
    { money := ((10 * i + 50 : ℕ) : ℚ)
      cash_type := if i % 2 = 0 then "card" else "cash"
      coffee_name := fallback_coffee_names.getD (i % 3) ""
      date := 2 + i })

/-- Outcome of the attempt to read the spreadsheet file: success, the file
is absent (Python `FileNotFoundError`), or some other read error (for
example a `PermissionError` on an unreadable file, or a parse error). -/
inductive ReadResult where
  | ok (d : Dataset)
  | fileNotFound
  | otherError (msg : String)
deriving DecidableEq

/-- The module-level `try/except` load of `main.py` (lines 17-30): the
`except` clause catches exactly `FileNotFoundError` and substitutes the
fallback table; any other exception from the read propagates
(`Except.error`). -/
def loadData : ReadResult → Except String Dataset
  | .ok d => .ok d
  | .fileNotFound => .ok fallbackData
  | .otherError msg => .error msg

/-- `df['money'].sum()`: the overall sum of the `money` column (0 on an
empty table, as in pandas). -/
def total_sales (df : Dataset) : ℚ := (df.map (fun t => t.money)).sum

/-- `len(df)`: the number of transaction rows. -/
def num_transactions (df : Dataset) : ℕ := df.length

/-- `pandas.Series.mean()`: arithmetic mean of a list of values, `none`
(pandas `NaN`) on the empty list. -/
def mean? (xs : List ℚ) : Option ℚ :=
  if xs = [] then none else some (xs.sum / (xs.length : ℚ))

/-- `df['money'].mean()`: the overall mean of the `money` column; `none`
models the `NaN` pandas returns on an empty column. -/
def avg_transaction_value (df : Dataset) : Option ℚ := mean? (df.map (fun t => t.money))

/-- `df.groupby(key)['money'].sum()` restricted to one group: the summed
`money` of the rows whose key column equals `k`. -/
def group_sum (key : Transaction → String) (k : String) (df : Dataset) : ℚ :=
  ((df.filter (fun t => key t == k)).map (fun t => t.money)).sum

/-- The group keys produced by `df.groupby(key)` with the pandas default
`sort=True`: the distinct key values in sorted order. -/
def sorted_keys (key : Transaction → String) (df : Dataset) : List String :=
  List.insertionSort (fun a b => a ≤ b) ((df.map key).dedup)

/-- `df.groupby('cash_type')['money'].sum()` from `create_donut_chart`:
payment type → summed `money`, keys in the groupby's sorted order. -/
def sales_by_payment_type (df : Dataset) : List (String × ℚ) :=
  (sorted_keys (fun t => t.cash_type) df).map
    (fun k => (k, group_sum (fun t => t.cash_type) k df))

/-- `df.groupby('coffee_name')['money'].sum().sort_values(ascending=True)`
from `create_bar_chart`: product → summed `money`, re-sorted ascending by
the summed value. -/
def revenue_by_coffee_type (df : Dataset) : List (String × ℚ) :=
  List.insertionSort (fun a b => a.2 ≤ b.2)
    ((sorted_keys (fun t => t.coffee_name) df).map
      (fun k => (k, group_sum (fun t => t.coffee_name) k df)))

/-- The weekday trend of `create_line_chart`: the copy of the table gains a
`Weekday` column (`dayName` of the date), is grouped over the full fixed
categorical weekday order with `observed=False`, the `money` mean is taken
per group (`NaN`, i.e. `none`, for a weekday with no rows), and the result
is reindexed in `weekday_order`. -/
def weekly_sales_trend (df : Dataset) : List (String × Option ℚ) :=
  let df_copy := df.map (fun t => (t, dayName t.date))
  weekday_order.map (fun w =>
    (w, mean? ((df_copy.filter (fun p => p.2 == w)).map (fun p => p.1.money))))

/-- Result of one chart-building function: either the literal no-data
paragraph the script returns on an empty table, or the chart's data. -/
inductive ChartOut (α : Type) where
  | noData (html : String)
  | chart (data : α)
deriving DecidableEq

/-- `create_donut_chart` of `main.py`: no-data paragraph on an empty table,
otherwise the payment-type pie whose labels/values are the groupby result in
its own order (the trace is built with `sort=False`, so plotly does not
re-sort it). -/
def create_donut_chart (df : Dataset) : ChartOut (List (String × ℚ)) :=
  if df.isEmpty then ChartOut.noData "<p>Sem dados para gráfico de rosca.</p>"
  else ChartOut.chart (sales_by_payment_type df)

/-- `create_bar_chart` of `main.py`: no-data paragraph on an empty table,
otherwise the horizontal revenue-by-product bars in ascending-value order. -/
def create_bar_chart (df : Dataset) : ChartOut (List (String × ℚ)) :=
  if df.isEmpty then ChartOut.noData "<p>Sem dados para gráfico de barras.</p>"
  else ChartOut.chart (revenue_by_coffee_type df)

/-- `create_line_chart` of `main.py`: no-data paragraph on an empty table,
otherwise the weekday trend line over the 7 fixed weekdays. -/
def create_line_chart (df : Dataset) : ChartOut (List (String × Option ℚ)) :=
  if df.isEmpty then ChartOut.noData "<p>Sem dados para gráfico de linha.</p>"
  else ChartOut.chart (weekly_sales_trend df)

/-- Python `round` to 0 places: round half to even on exact rationals. -/
def pyRound (x : ℚ) : ℤ :=
  if x - ⌊x⌋ < 1 / 2 then ⌊x⌋
  else if (1 : ℚ) / 2 < x - ⌊x⌋ then ⌊x⌋ + 1
  else if ⌊x⌋ % 2 = 0 then ⌊x⌋ else ⌊x⌋ + 1

/-- Python `round(value, 2)`: round half to even at 2 decimal places. -/
def round2 (x : ℚ) : ℚ := ((pyRound (100 * x) : ℤ) : ℚ) / 100

/-- Python `int(value)`: truncation toward zero. -/
def pyInt (x : ℚ) : ℤ := if 0 ≤ x then ⌊x⌋ else ⌈x⌉

/-- The plotly Indicator specification produced by `create_metric_card`. -/
structure MetricCard where
  value : ℚ
  title : String
  height : ℕ
deriving DecidableEq

/-- `create_metric_card` of `main.py`: the displayed number is
`round(value, 2)` when `is_currency` and `int(value)` otherwise. -/
def create_metric_card (value : ℚ) (title : String) (is_currency : Bool)
    (height : ℕ) : MetricCard :=
  { value := if is_currency then round2 value else ((pyInt value : ℤ) : ℚ)
    title := title
    height := height }

/-- The composed dashboard page of `index` in `main.py`: the three metric
cards, the donut, the bar chart and the line chart.  `card3` is `none` when
the average was pandas `NaN` (empty table), since the `NaN` propagates
through `round` into the Indicator. -/
structure PageData where
  card1 : MetricCard
  card2 : MetricCard
  card3 : Option MetricCard
  donut : ChartOut (List (String × ℚ))
  bar : ChartOut (List (String × ℚ))
  line : ChartOut (List (String × Option ℚ))

/-- State-threaded `create_donut_chart`: Python passes the frame by
reference, so the second component is the frame the caller's `df` refers to
after the call.  The function only reads `df` (groupby allocates new
objects), so the frame comes back unchanged. -/
def create_donut_chart_st (df : Dataset) : ChartOut (List (String × ℚ)) × Dataset :=
  (create_donut_chart df, df)

/-- State-threaded `create_bar_chart`: groupby and `sort_values` allocate
new objects, so the caller's frame comes back unchanged. -/
def create_bar_chart_st (df : Dataset) : ChartOut (List (String × ℚ)) × Dataset :=
  (create_bar_chart df, df)

/-- State-threaded `create_line_chart`: the source takes `df_copy =
df.copy()` and writes the converted `date` and the new `Weekday` column into
the copy only, so the caller's frame comes back unchanged. -/
def create_line_chart_st (df : Dataset) : ChartOut (List (String × Option ℚ)) × Dataset :=
  (create_line_chart df, df)

/-- The `index` route of `main.py`, state-threaded through the chart
builders: computes the three overall metrics, builds the cards and the three
charts, and returns the page together with the frame as the run leaves it. -/
def index_st (df : Dataset) : PageData × Dataset :=
  let card1 := create_metric_card (total_sales df) "Total Sales" true 350
  let card2 := create_metric_card ((num_transactions df : ℕ) : ℚ) "Number Of Transaction" false 350
  let card3 := (avg_transaction_value df).map
    (fun v => create_metric_card v "Avg Transaction Value" true 350)
  let donutPair := create_donut_chart_st df
  let barPair := create_bar_chart_st donutPair.2
  let linePair := create_line_chart_st barPair.2
  ({ card1 := card1
     card2 := card2
     card3 := card3
     donut := donutPair.1
     bar := barPair.1
     line := linePair.1 }, linePair.2)

/-- One-row sample table (a Wednesday transaction), used to instantiate
hypotheses of the universally quantified theorems at a concrete input. -/
def sample1 : Dataset :=
  [{ money := 50, cash_type := "card", coffee_name := "Espresso", date := 2 }]

/-- Two-row sample table with two payment types and two products, used to
instantiate hypotheses of the universally quantified theorems. -/
def sample2 : Dataset :=
  [{ money := 60, cash_type := "cash", coffee_name := "Latte", date := 3 },
   { money := 50, cash_type := "card", coffee_name := "Espresso", date := 2 }]

/-- C1 counterexample: an unreadable (but present) file is not recovered.
The `except` clause of the load catches only `FileNotFoundError`, so another
read error — for example a `PermissionError` — propagates past the load
boundary instead of producing the fallback table. -/
theorem loadData_unreadable_raises :
    loadData (ReadResult.otherError "PermissionError") = Except.error "PermissionError" ∧
    loadData (ReadResult.otherError "PermissionError") ≠ Except.ok fallbackData :=
  ⟨rfl, fun h => nomatch h⟩

/-- C1 (amended): when the file is absent (`FileNotFoundError`) the loader
returns the deterministic fallback table of exactly 100 synthetic rows and
does not raise; a successful read passes the file's table through. -/
theorem loadData_absent_fallback :
    loadData ReadResult.fileNotFound = Except.ok fallbackData ∧
    fallbackData.length = 100 ∧
    (∀ d : Dataset, loadData (ReadResult.ok d) = Except.ok d) := by
  refine ⟨rfl, ?_, fun d => rfl⟩
  simp [fallbackData]

/-- C2 counterexample: on the empty table the overall mean is pandas `NaN`
(modelled `none`), not 0 — `df['money'].mean()` of an empty column is `NaN`
and `round(NaN, 2)` stays `NaN`, so the average is not reported as 0. -/
theorem avg_empty_not_zero :
    avg_transaction_value ([] : Dataset) = none ∧
    avg_transaction_value ([] : Dataset) ≠ some 0 :=
  ⟨rfl, fun h => nomatch h⟩

/-- C2 (amended): on the empty table total_sales is 0 and the transaction
count is 0, while the average degrades to the undefined value `NaN`
(modelled `none`), not to 0. -/
theorem empty_metrics :
    total_sales ([] : Dataset) = 0 ∧
    num_transactions ([] : Dataset) = 0 ∧
    avg_transaction_value ([] : Dataset) = none :=
  ⟨rfl, rfl, rfl⟩

/-- C3: on the empty table each grouped-view chart builder returns its
literal no-data paragraph instead of raising. -/
theorem empty_charts_no_data :
    create_donut_chart ([] : Dataset) =
      ChartOut.noData "<p>Sem dados para gráfico de rosca.</p>" ∧
    create_bar_chart ([] : Dataset) =
      ChartOut.noData "<p>Sem dados para gráfico de barras.</p>" ∧
    create_line_chart ([] : Dataset) =
      ChartOut.noData "<p>Sem dados para gráfico de linha.</p>" :=
  ⟨rfl, rfl, rfl⟩

/-- C4: on the documented fallback table the overall metrics are exactly
total_sales = 54500, transaction_count = 100, and average transaction value
545. -/
theorem fallback_metrics :
    total_sales fallbackData = 54500 ∧
    num_transactions fallbackData = 100 ∧
    avg_transaction_value fallbackData = some 545 := by
  have hmap : fallbackData.map (fun t => t.money) =
      ((List.range 100).map (fun i => (10 * i + 50 : ℕ))).map (fun n : ℕ => (n : ℚ)) := by
    simp [fallbackData, List.map_map, Function.comp_def]
  have hns : (((List.range 100).map (fun i => (10 * i + 50 : ℕ))).sum) = 54500 := by decide
  have hsum : (fallbackData.map (fun t => t.money)).sum = (54500 : ℚ) := by
    rw [hmap, ← Nat.cast_list_sum, hns]
    norm_num
  have hlen : (fallbackData.map (fun t => t.money)).length = 100 := by
    simp [fallbackData]
  have hne : fallbackData.map (fun t => t.money) ≠ [] := by
    intro h
    rw [h] at hlen
    exact absurd hlen (by norm_num)
  refine ⟨hsum, by simp [num_transactions, fallbackData], ?_⟩
  rw [avg_transaction_value, mean?, if_neg hne, hsum, hlen]
  norm_num

/-- C9: no view builder mutates the loaded table: the donut, bar and line
builders (the line builder operates on `df.copy()` when it adds the
`Weekday` column) and the whole `index` run each hand the caller's frame
back unchanged. -/
theorem views_leave_df_unchanged (df : Dataset) :
    (create_donut_chart_st df).2 = df ∧
    (create_bar_chart_st df).2 = df ∧
    (create_line_chart_st df).2 = df ∧
    (index_st df).2 = df :=
  ⟨rfl, rfl, rfl, rfl⟩

/-- C5: for every non-empty table the weekday trend reports exactly the 7
fixed keys in Monday..Sunday order, whatever weekdays occur in the input,
and a weekday with no transactions carries `none` (pandas `NaN`), not 0. -/
theorem weekly_trend_seven_keys (df : Dataset) (hne : df ≠ []) :
    (weekly_sales_trend df).map Prod.fst = weekday_order ∧
    (weekly_sales_trend df).length = 7 ∧
    (∀ w ∈ weekday_order, (∀ t ∈ df, dayName t.date ≠ w) →
      (w, (none : Option ℚ)) ∈ weekly_sales_trend df) := by
  refine ⟨?_, ?_, ?_⟩
  · simp [weekly_sales_trend, List.map_map, Function.comp_def]
  · simp [weekly_sales_trend, weekday_order]
  · intro w hw habs
    have hfil : ((df.map (fun t => (t, dayName t.date))).filter (fun p => p.2 == w)) = [] := by
      rw [List.filter_eq_nil_iff]
      intro p hp
      rcases List.mem_map.mp hp with ⟨t, ht, rfl⟩
      simp [habs t ht]
    simp only [weekly_sales_trend]
    refine List.mem_map.mpr ⟨w, hw, ?_⟩
    rw [hfil]
    rfl

/-- C5 witness: the theorem applied to the one-row Wednesday table, with
Monday as the absent weekday. -/
theorem weekly_trend_seven_keys_witness :
    sample1 ≠ [] ∧ ("Monday", (none : Option ℚ)) ∈ weekly_sales_trend sample1 := by
  have hne : sample1 ≠ [] := by decide
  refine ⟨hne, ?_⟩
  exact (weekly_trend_seven_keys sample1 hne).2.2 "Monday" (by decide) (by decide)

/-- Round-half-to-even lands within 1/2 of its argument. -/
theorem pyRound_close (x : ℚ) : |((pyRound x : ℤ) : ℚ) - x| ≤ 1 / 2 := by
  have h0 : ((⌊x⌋ : ℤ) : ℚ) ≤ x := Int.floor_le x
  have h1 : x < ⌊x⌋ + 1 := Int.lt_floor_add_one x
  unfold pyRound
  split_ifs with hlt hgt hev
  · rw [abs_le]
    constructor <;> linarith
  · rw [abs_le]
    push_cast
    constructor <;> linarith
  · rw [abs_le]
    constructor <;> linarith
  · rw [abs_le]
    push_cast
    constructor <;> linarith

/-- C8: the metric-card Presenter renders a currency value as `round(v, 2)` —
a number with at most 2 decimal places lying within half a cent of the raw
value — and renders a non-currency value (a count) as the integer `int(v)`. -/
theorem metric_card_formats (v : ℚ) (title : String) (h : ℕ) :
    (create_metric_card v title true h).value = round2 v ∧
    (∃ n : ℤ, round2 v = (n : ℚ) / 100) ∧
    |round2 v - v| ≤ 1 / 200 ∧
    (∃ m : ℤ, (create_metric_card v title false h).value = (m : ℚ)) := by
  refine ⟨rfl, ⟨pyRound (100 * v), rfl⟩, ?_, ⟨pyInt v, rfl⟩⟩
  have hc := pyRound_close (100 * v)
  have heq : round2 v - v = (((pyRound (100 * v) : ℤ) : ℚ) - 100 * v) / 100 := by
    rw [round2]
    ring
  rw [heq, abs_div, show |(100 : ℚ)| = 100 from by norm_num]
  calc |((pyRound (100 * v) : ℤ) : ℚ) - 100 * v| / 100
      ≤ (1 / 2) / 100 := (div_le_div_iff_of_pos_right (by norm_num)).mpr hc
    _ = 1 / 200 := by norm_num

/-- Summing a pointwise sum of two functions over a key list splits. -/
theorem sum_map_add (l : List String) (f g : String → ℚ) :
    (l.map (fun k => f k + g k)).sum = (l.map f).sum + (l.map g).sum := by
  induction l with
  | nil => simp
  | cons k l ih =>
    simp [ih]
    ring

/-- Unfolding one row out of a single group's sum. -/
theorem group_sum_cons (key : Transaction → String) (k : String) (t : Transaction)
    (df : Dataset) :
    group_sum key k (t :: df) = (if key t = k then t.money else 0) + group_sum key k df := by
  by_cases h : key t = k
  · simp [group_sum, List.filter_cons, h]
  · simp [group_sum, List.filter_cons, h]

/-- Over a duplicate-free key list containing `a`, the indicator sum picks
out `v` exactly once. -/
theorem indicator_sum (a : String) (v : ℚ) :
    ∀ ks : List String, ks.Nodup → a ∈ ks →
      (ks.map (fun k => if a = k then v else 0)).sum = v := by
  intro ks
  induction ks with
  | nil =>
    intro _ ha
    cases ha
  | cons k ks ih =>
    intro hnd ha
    rcases List.mem_cons.mp ha with h | ha2
    · subst h
      have hnot : a ∉ ks := (List.nodup_cons.mp hnd).1
      have hz : ks.map (fun q => if a = q then v else 0) = ks.map (fun _ => (0 : ℚ)) :=
        List.map_congr_left (fun x hx => if_neg (fun (e : a = x) => hnot (e ▸ hx)))
      simp [hz]
    · have hne : a ≠ k := fun e => (List.nodup_cons.mp hnd).1 (e ▸ ha2)
      simp [hne, ih (List.nodup_cons.mp hnd).2 ha2]

/-- Partition law: the per-group sums over a duplicate-free key list that
covers every row add up to the overall sum of the `money` column. -/
theorem sum_group_sums (key : Transaction → String) :
    ∀ df : Dataset, ∀ ks : List String, ks.Nodup → (∀ t ∈ df, key t ∈ ks) →
      (ks.map (fun k => group_sum key k df)).sum = total_sales df := by
  intro df
  induction df with
  | nil =>
    intro ks _ _
    simp [group_sum, total_sales]
  | cons t df ih =>
    intro ks hnd hall
    have hstep : ks.map (fun k => group_sum key k (t :: df)) =
        ks.map (fun k => (if key t = k then t.money else 0) + group_sum key k df) :=
      List.map_congr_left (fun k _ => group_sum_cons key k t df)
    rw [hstep, sum_map_add,
      indicator_sum (key t) t.money ks hnd (hall t (List.mem_cons_self t df)),
      ih ks hnd (fun x hx => hall x (List.mem_cons_of_mem t hx))]
    simp [total_sales]

/-- The sorted groupby key list is duplicate-free. -/
theorem sorted_keys_nodup (key : Transaction → String) (df : Dataset) :
    (sorted_keys key df).Nodup :=
  (List.perm_insertionSort _ _).nodup_iff.mpr (List.nodup_dedup _)

/-- Every row's key occurs in the sorted groupby key list. -/
theorem mem_sorted_keys (key : Transaction → String) (df : Dataset) (t : Transaction)
    (ht : t ∈ df) : key t ∈ sorted_keys key df := by
  unfold sorted_keys
  exact (List.perm_insertionSort _ _).mem_iff.mpr
    (List.mem_dedup.mpr (List.mem_map_of_mem key ht))

/-- C7: the values of the payment-type grouping sum to total_sales — the
groups partition the rows, so no revenue is dropped or double-counted. -/
theorem payment_values_sum_to_total (df : Dataset) :
    ((sales_by_payment_type df).map (fun p => p.2)).sum = total_sales df := by
  unfold sales_by_payment_type
  rw [List.map_map]
  have hcomp : ((fun p : String × ℚ => p.2) ∘
      (fun k => (k, group_sum (fun t => t.cash_type) k df))) =
      fun k => group_sum (fun t => t.cash_type) k df := rfl
  rw [hcomp]
  exact sum_group_sums (fun t => t.cash_type) df _ (sorted_keys_nodup _ df)
    (fun t ht => mem_sorted_keys _ df t ht)

/-- C6: the revenue-by-product view is ordered ascending by its summed
value (smallest revenue first), as produced by `sort_values(ascending=True)`. -/
theorem revenue_sorted_ascending (df : Dataset)
    (hp : 2 ≤ ((df.map (fun t => t.coffee_name)).dedup).length) :
    List.Sorted (fun a b => a.2 ≤ b.2) (revenue_by_coffee_type df) := by
  unfold revenue_by_coffee_type
  exact @List.sorted_insertionSort (String × ℚ) (fun a b => a.2 ≤ b.2) _
    ⟨fun a b => le_total a.2 b.2⟩ ⟨fun a b c hab hbc => le_trans hab hbc⟩ _

/-- C6 witness: the theorem applied to the two-row table with the two
distinct products Latte and Espresso. -/
theorem revenue_sorted_ascending_witness :
    2 ≤ ((sample2.map (fun t => t.coffee_name)).dedup).length ∧
    List.Sorted (fun a b => a.2 ≤ b.2) (revenue_by_coffee_type sample2) :=
  ⟨by decide, revenue_sorted_ascending sample2 (by decide)⟩

/-- C10: for a non-empty table the payment-type grouping emits its keys in
strictly sorted lexicographic order (pandas groupby default `sort=True`),
and the donut chart is built from exactly that pair list — the pie trace
uses `sort=False`, so the order is preserved. -/
theorem donut_keys_sorted (df : Dataset) (hne : df ≠ []) :
    List.Sorted (fun a b => a < b) ((sales_by_payment_type df).map (fun p => p.1)) ∧
    create_donut_chart df = ChartOut.chart (sales_by_payment_type df) := by
  constructor
  · have hmap : (sales_by_payment_type df).map (fun p => p.1) =
        sorted_keys (fun t => t.cash_type) df := by
      unfold sales_by_payment_type
      rw [List.map_map]
      exact List.map_id' _
    rw [hmap]
    have hs : List.Sorted (fun a b => a ≤ b) (sorted_keys (fun t => t.cash_type) df) :=
      List.sorted_insertionSort _ _
    have hnd : (sorted_keys (fun t => t.cash_type) df).Nodup := sorted_keys_nodup _ df
    exact (hs.and hnd).imp (fun hab => lt_of_le_of_ne hab.1 hab.2)
  · have hemp : ¬ (df.isEmpty = true) := by simp [List.isEmpty_iff, hne]
    unfold create_donut_chart
    rw [if_neg hemp]

/-- C10 witness: the theorem applied to the two-row table whose first-seen
payment-type order (cash, card) differs from the emitted sorted order. -/
theorem donut_keys_sorted_witness :
    sample2 ≠ [] ∧
    List.Sorted (fun a b => a < b) ((sales_by_payment_type sample2).map (fun p => p.1)) :=
  ⟨by decide, (donut_keys_sorted sample2 (by decide)).1⟩
